import Mathlib

set_option maxRecDepth 8000

/-!
Verification of the service-call tracking repository core: the paginated
full-table fetch loops (four near-identical copies across the source files)
and the in-memory aggregation views of the dashboard.

Modelling conventions:
* The remote table is a list of rows; the request for the range
  `[start, start + 999]` returns `(table.drop start).take 1000`
  (`page_size` is the literal 1000 in every copy of the loop).
* A request failure is modelled by a predicate `fails : Nat → Bool` on the
  start index of the request; `fails start = true` means the request for
  `[start, start + 999]` raises.
* Dates and timestamps are integers (days); `pd.to_datetime(errors =
  coerce)` producing NaT for a missing or unparseable value is `none`.
* pandas `mean` is rational arithmetic (`Rat`); the mean of an empty
  series is never taken by the code (it is guarded), so totality of `Rat`
  division is harmless.
* pandas `sort_values` is modelled by `List.insertionSort` with the
  corresponding key relation (order among equal keys is not specified by
  pandas' default quicksort, and no claim depends on tie order).
-/

/-- A row of the `Service_Log` table.  Categorical and text columns are
`Option String` (a `none` is a SQL null / pandas NaN), date columns are
`Option Int` (days; `none` is NaT after `errors='coerce'` parsing). -/
structure ServiceRecord where
  call_id : String
  customer_name : Option String
  instrument_name : Option String
  technician_name : Option String
  contact_person : Option String
  serial_number : Option String
  status : Option String
  date_logged : Option Int
  date_visited : Option Int
  last_updated : Option Int
  problem_description : Option String
  action_taken : Option String
  spare_parts : Option String
  remarks : Option String
  warranty_status : Option String
  call_type : Option String
deriving DecidableEq, Repr

namespace Dashboard

/-- The pagination loop of `load_all_service_logs` in `src/Dashboard.py`
(lines 45-71).  The whole loop body sits inside one `try`, so a failing
request aborts the loop with the error.  The loop breaks on an empty
batch, extends the accumulator, then breaks when the batch is shorter
than `page_size = 1000`.  The result carries the fetched rows and the
number of requests issued. -/
def load_all_service_logs_go {α : Type} (table : List α) (fails : Nat → Bool)
    (start : Nat) : Except String (List α × Nat) :=
  if fails start then
    .error "Error loading service logs"
  else
    let batch := (table.drop start).take 1000
    if batch.isEmpty then .ok ([], 1)
    else if batch.length < 1000 then .ok (batch, 1)
    else
      (load_all_service_logs_go table fails (start + 1000)).map
        (fun p => (batch ++ p.1, p.2 + 1))
termination_by table.length - start
decreasing_by
  rename_i hempty hshort
  have h1 : batch.length = min 1000 (table.length - start) := by
    show ((table.drop start).take 1000).length = _
    simp [List.length_take, List.length_drop]
  have h2 : batch.length ≠ 0 := by
    intro h0
    exact hempty (by simp [List.length_eq_zero.mp h0])
  omega

/-- The `except` handler of `load_all_service_logs` in `src/Dashboard.py`:
on an error the function returns an empty DataFrame (the error text is
shown to the user via `st.error`). -/
def load_all_service_logs {α : Type} (table : List α) (fails : Nat → Bool) : List α :=
  match load_all_service_logs_go table fails 0 with
  | .ok (rows, _) => rows
  | .error _ => []

end Dashboard

namespace MobileServiceLog

/-- The pagination loop of `load_paginated_data` in
`src/mobile_service_log.py` (lines 99-123): identical structure to the
Dashboard loop (whole-loop `try`, break on empty batch, break on a batch
shorter than `page_size = 1000`). -/
def load_paginated_data_go {α : Type} (table : List α) (fails : Nat → Bool)
    (start : Nat) : Except String (List α × Nat) :=
  if fails start then
    .error "Error loading table"
  else
    let batch := (table.drop start).take 1000
    if batch.isEmpty then .ok ([], 1)
    else if batch.length < 1000 then .ok (batch, 1)
    else
      (load_paginated_data_go table fails (start + 1000)).map
        (fun p => (batch ++ p.1, p.2 + 1))
termination_by table.length - start
decreasing_by
  rename_i hempty hshort
  have h1 : batch.length = min 1000 (table.length - start) := by
    show ((table.drop start).take 1000).length = _
    simp [List.length_take, List.length_drop]
  have h2 : batch.length ≠ 0 := by
    intro h0
    exact hempty (by simp [List.length_eq_zero.mp h0])
  omega

/-- The `except` handler of `load_paginated_data` in
`src/mobile_service_log.py`: on an error the function returns an empty
DataFrame. -/
def load_paginated_data {α : Type} (table : List α) (fails : Nat → Bool) : List α :=
  match load_paginated_data_go table fails 0 with
  | .ok (rows, _) => rows
  | .error _ => []

end MobileServiceLog

/-- One iteration of the accumulate-only loops: append the current batch to
the rows of the remaining iterations and count one more request (`all_data.
extend(batch)` followed by the rest of the loop). -/
def pageStep {α : Type} (batch : List α) (p : List α × Nat × Bool) :
    List α × Nat × Bool :=
  (batch ++ p.1, p.2.1 + 1, p.2.2)

namespace UpdateLog

/-- The pagination loop of `load_paginated_data` in `src/update_log.py`
(lines 29-48).  The `try` is around the single request: a failing request
breaks out of the loop, keeping the rows accumulated so far.  The loop
breaks only on an empty batch; there is no short-page break.  The result
is (rows of this and later pages, requests issued, whether a request
failed). -/
def load_paginated_data_go {α : Type} (table : List α) (fails : Nat → Bool)
    (start : Nat) : List α × Nat × Bool :=
  if fails start then ([], 1, true)
  else
    let batch := (table.drop start).take 1000
    if batch.isEmpty then ([], 1, false)
    else
      pageStep batch (load_paginated_data_go table fails (start + 1000))
termination_by table.length - start
decreasing_by
  rename_i hempty
  have h1 : batch.length = min 1000 (table.length - start) := by
    show ((table.drop start).take 1000).length = _
    simp [List.length_take, List.length_drop]
  have h2 : batch.length ≠ 0 := by
    intro h0
    exact hempty (by simp [List.length_eq_zero.mp h0])
  omega

/-- `load_paginated_data` of `src/update_log.py` as seen by its caller:
the accumulated rows (the error, if any, is only displayed, not
returned). -/
def load_paginated_data {α : Type} (table : List α) (fails : Nat → Bool) : List α :=
  (load_paginated_data_go table fails 0).1

end UpdateLog

namespace Backup2

/-- The pagination loop of `load_paginated_data` in
`src/mobile_service_log_backup2.py` (lines 42-61): identical structure to
the `update_log.py` loop (per-request `try` that breaks keeping the rows
fetched so far, and no short-page break). -/
def load_paginated_data_go {α : Type} (table : List α) (fails : Nat → Bool)
    (start : Nat) : List α × Nat × Bool :=
  if fails start then ([], 1, true)
  else
    let batch := (table.drop start).take 1000
    if batch.isEmpty then ([], 1, false)
    else
      pageStep batch (load_paginated_data_go table fails (start + 1000))
termination_by table.length - start
decreasing_by
  rename_i hempty
  have h1 : batch.length = min 1000 (table.length - start) := by
    show ((table.drop start).take 1000).length = _
    simp [List.length_take, List.length_drop]
  have h2 : batch.length ≠ 0 := by
    intro h0
    exact hempty (by simp [List.length_eq_zero.mp h0])
  omega

/-- `load_paginated_data` of `src/mobile_service_log_backup2.py` as seen
by its caller. -/
def load_paginated_data {α : Type} (table : List α) (fails : Nat → Bool) : List α :=
  (load_paginated_data_go table fails 0).1

end Backup2

/-! ### Behaviour of the pagination loops -/

/-- With no failing request, the Dashboard loop starting at `start` returns
exactly the rows from index `start` on and issues `(remaining rows) / 1000 + 1`
requests (floor division: the final request returns the short last page, or an
empty page exactly when the remaining row count is a multiple of 1000,
including zero). -/
theorem Dashboard.dashboard_go_noFail_spec {α : Type} (table : List α) (start : Nat) :
    Dashboard.load_all_service_logs_go table (fun _ => false) start
      = .ok (table.drop start, (table.length - start) / 1000 + 1) := by
  rw [Dashboard.load_all_service_logs_go.eq_def]
  by_cases h1 : ((table.drop start).take 1000).isEmpty
  · have hd : table.drop start = [] := by
      rcases List.take_eq_nil_iff.mp (List.isEmpty_iff.mp h1) with h | h
      · exact absurd h (by norm_num)
      · exact h
    have h2 : table.length ≤ start := List.drop_eq_nil_iff.mp hd
    simp only [h1, if_true, hd, if_false]
    simp
    omega
  · by_cases h3 : ((table.drop start).take 1000).length < 1000
    · have hlt : (table.drop start).length < 1000 := by
        have := List.length_take 1000 (table.drop start)
        omega
      have hfull : (table.drop start).take 1000 = table.drop start :=
        List.take_of_length_le (by omega)
      have hdl : (table.drop start).length = table.length - start := by
        simp [List.length_drop]
      have hpos : start < table.length := by
        by_contra hc
        have hd0 : table.drop start = [] := List.drop_eq_nil_iff.mpr (by omega)
        exact h1 (by simp [hd0])
      have hm2 : (table.length - start) / 1000 = 0 := by omega
      simp only [h1, h3, if_true, if_false, hfull]
      simp [hm2]
      rw [if_neg (by omega), if_pos (by omega)]
    · have hge : ¬ (table.drop start).length < 1000 := by
        have := List.length_take 1000 (table.drop start)
        omega
      simp only [h1, h3, if_true, if_false]
      rw [Dashboard.dashboard_go_noFail_spec table (start + 1000)]
      have hrows : (table.drop start).take 1000 ++ table.drop (start + 1000)
          = table.drop start := by
        rw [← List.drop_drop, List.take_append_drop]
      have hdl : (table.drop start).length = table.length - start := by
        simp [List.length_drop]
      have hcount : (table.length - (start + 1000)) / 1000 + 1 + 1
          = (table.length - start) / 1000 + 1 := by omega
      simp [Except.map, hrows, hcount]
termination_by table.length - start
decreasing_by
  have hdl : (table.drop start).length = table.length - start := by
    simp [List.length_drop]
  omega

/-- With no failing request, the mobile-app loop behaves exactly like the
Dashboard loop: full table, `(remaining rows) / 1000 + 1` requests. -/
theorem MobileServiceLog.mobile_go_noFail_spec {α : Type} (table : List α) (start : Nat) :
    MobileServiceLog.load_paginated_data_go table (fun _ => false) start
      = .ok (table.drop start, (table.length - start) / 1000 + 1) := by
  rw [MobileServiceLog.load_paginated_data_go.eq_def]
  by_cases h1 : ((table.drop start).take 1000).isEmpty
  · have hd : table.drop start = [] := by
      rcases List.take_eq_nil_iff.mp (List.isEmpty_iff.mp h1) with h | h
      · exact absurd h (by norm_num)
      · exact h
    have h2 : table.length ≤ start := List.drop_eq_nil_iff.mp hd
    simp only [h1, if_true, hd, if_false]
    simp
    omega
  · by_cases h3 : ((table.drop start).take 1000).length < 1000
    · have hlt : (table.drop start).length < 1000 := by
        have := List.length_take 1000 (table.drop start)
        omega
      have hfull : (table.drop start).take 1000 = table.drop start :=
        List.take_of_length_le (by omega)
      have hdl : (table.drop start).length = table.length - start := by
        simp [List.length_drop]
      have hpos : start < table.length := by
        by_contra hc
        have hd0 : table.drop start = [] := List.drop_eq_nil_iff.mpr (by omega)
        exact h1 (by simp [hd0])
      have hm2 : (table.length - start) / 1000 = 0 := by omega
      simp only [h1, h3, if_true, if_false, hfull]
      simp [hm2]
      rw [if_neg (by omega), if_pos (by omega)]
    · have hge : ¬ (table.drop start).length < 1000 := by
        have := List.length_take 1000 (table.drop start)
        omega
      simp only [h1, h3, if_true, if_false]
      rw [MobileServiceLog.mobile_go_noFail_spec table (start + 1000)]
      have hrows : (table.drop start).take 1000 ++ table.drop (start + 1000)
          = table.drop start := by
        rw [← List.drop_drop, List.take_append_drop]
      have hdl : (table.drop start).length = table.length - start := by
        simp [List.length_drop]
      have hcount : (table.length - (start + 1000)) / 1000 + 1 + 1
          = (table.length - start) / 1000 + 1 := by omega
      simp [Except.map, hrows, hcount]
termination_by table.length - start
decreasing_by
  have hdl : (table.drop start).length = table.length - start := by
    simp [List.length_drop]
  omega

/-- With no failing request, the `update_log.py` loop returns the whole
remaining table but issues `ceil(remaining / 1000) + 1` requests: having no
short-page break, it always pays one extra request for a trailing empty
page, even when the previous page was already short. -/
theorem UpdateLog.update_go_noFail_spec {α : Type} (table : List α) (start : Nat) :
    UpdateLog.load_paginated_data_go table (fun _ => false) start
      = (table.drop start, (table.length - start + 999) / 1000 + 1, false) := by
  rw [UpdateLog.load_paginated_data_go.eq_def]
  by_cases h1 : ((table.drop start).take 1000).isEmpty
  · have hd : table.drop start = [] := by
      rcases List.take_eq_nil_iff.mp (List.isEmpty_iff.mp h1) with h | h
      · exact absurd h (by norm_num)
      · exact h
    have h2 : table.length ≤ start := List.drop_eq_nil_iff.mp hd
    simp only [h1, if_true, hd, if_false]
    simp
    omega
  · have hne : ((table.drop start).take 1000).length ≠ 0 := by
      intro h0
      exact h1 (by simp [List.length_eq_zero.mp h0])
    have hdl : (table.drop start).length = table.length - start := by
      simp [List.length_drop]
    have hlt : start < table.length := by
      have := List.length_take 1000 (table.drop start)
      omega
    simp only [h1, if_true, if_false]
    rw [UpdateLog.update_go_noFail_spec table (start + 1000)]
    have hrows : (table.drop start).take 1000 ++ table.drop (start + 1000)
        = table.drop start := by
      rw [← List.drop_drop, List.take_append_drop]
    have hcount : (table.length - (start + 1000) + 999) / 1000 + 1 + 1
        = (table.length - start + 999) / 1000 + 1 := by omega
    simp [pageStep, hrows, hcount]
termination_by table.length - start
decreasing_by
  have _hdl : (table.drop start).length = table.length - start := by
    simp [List.length_drop]
  have hne : ((table.drop start).take 1000).length ≠ 0 := by
    intro h0
    exact h1 (by simp [List.length_eq_zero.mp h0])
  have := List.length_take 1000 (table.drop start)
  omega

/-- With no failing request, the backup mobile-form loop behaves exactly
like the `update_log.py` loop. -/
theorem Backup2.backup2_go_noFail_spec {α : Type} (table : List α) (start : Nat) :
    Backup2.load_paginated_data_go table (fun _ => false) start
      = (table.drop start, (table.length - start + 999) / 1000 + 1, false) := by
  rw [Backup2.load_paginated_data_go.eq_def]
  by_cases h1 : ((table.drop start).take 1000).isEmpty
  · have hd : table.drop start = [] := by
      rcases List.take_eq_nil_iff.mp (List.isEmpty_iff.mp h1) with h | h
      · exact absurd h (by norm_num)
      · exact h
    have h2 : table.length ≤ start := List.drop_eq_nil_iff.mp hd
    simp only [h1, if_true, hd, if_false]
    simp
    omega
  · have hne : ((table.drop start).take 1000).length ≠ 0 := by
      intro h0
      exact h1 (by simp [List.length_eq_zero.mp h0])
    have hdl : (table.drop start).length = table.length - start := by
      simp [List.length_drop]
    have hlt : start < table.length := by
      have := List.length_take 1000 (table.drop start)
      omega
    simp only [h1, if_true, if_false]
    rw [Backup2.backup2_go_noFail_spec table (start + 1000)]
    have hrows : (table.drop start).take 1000 ++ table.drop (start + 1000)
        = table.drop start := by
      rw [← List.drop_drop, List.take_append_drop]
    have hcount : (table.length - (start + 1000) + 999) / 1000 + 1 + 1
        = (table.length - start + 999) / 1000 + 1 := by omega
    simp [pageStep, hrows, hcount]
termination_by table.length - start
decreasing_by
  have _hdl : (table.drop start).length = table.length - start := by
    simp [List.length_drop]
  have hne : ((table.drop start).take 1000).length ≠ 0 := by
    intro h0
    exact h1 (by simp [List.length_eq_zero.mp h0])
  have := List.length_take 1000 (table.drop start)
  omega

/-- Whatever requests fail, the rows returned by the `update_log.py` loop
are an initial segment of the remaining table: the pages fetched before the
first failing (or empty) request. -/
theorem UpdateLog.update_go_rows_take {α : Type} (table : List α) (fails : Nat → Bool)
    (start : Nat) :
    ∃ k, (UpdateLog.load_paginated_data_go table fails start).1
      = (table.drop start).take k := by
  rw [UpdateLog.load_paginated_data_go.eq_def]
  by_cases h0 : fails start = true
  · exact ⟨0, by simp [h0]⟩
  · by_cases h1 : ((table.drop start).take 1000).isEmpty
    · exact ⟨0, by simp [h0, h1]⟩
    · obtain ⟨k, hk⟩ := UpdateLog.update_go_rows_take table fails (start + 1000)
      refine ⟨1000 + k, ?_⟩
      simp only [h0, h1, if_true, if_false, pageStep]
      rw [List.take_add]
      simp
      rw [hk]
termination_by table.length - start
decreasing_by
  have hdl : (table.drop start).length = table.length - start := by
    simp [List.length_drop]
  have hne : ((table.drop start).take 1000).length ≠ 0 := by
    intro h0x
    exact h1 (by simp [List.length_eq_zero.mp h0x])
  have := List.length_take 1000 (table.drop start)
  omega

/-- If no request failed (the error flag is `false`), the `update_log.py`
loop returned the whole remaining table. -/
theorem UpdateLog.update_go_full_of_ok {α : Type} (table : List α) (fails : Nat → Bool)
    (start : Nat)
    (h : (UpdateLog.load_paginated_data_go table fails start).2.2 = false) :
    (UpdateLog.load_paginated_data_go table fails start).1 = table.drop start := by
  rw [UpdateLog.load_paginated_data_go.eq_def] at h ⊢
  by_cases h0 : fails start = true
  · simp [h0] at h
  · by_cases h1 : ((table.drop start).take 1000).isEmpty
    · have hd : table.drop start = [] := by
        rcases List.take_eq_nil_iff.mp (List.isEmpty_iff.mp h1) with hx | hx
        · exact absurd hx (by norm_num)
        · exact hx
      simp [h0, h1, hd]
    · simp only [h0, h1, if_true, if_false, pageStep] at h ⊢
      have hih := UpdateLog.update_go_full_of_ok table fails (start + 1000) (by simpa using h)
      simp only [hih]
      rw [← List.drop_drop, List.take_append_drop]
      simp
termination_by table.length - start
decreasing_by
  have hdl : (table.drop start).length = table.length - start := by
    simp [List.length_drop]
  have hne : ((table.drop start).take 1000).length ≠ 0 := by
    intro h0x
    exact h1 (by simp [List.length_eq_zero.mp h0x])
  have := List.length_take 1000 (table.drop start)
  omega

/-- Whatever requests fail, the rows returned by the backup mobile-form
loop are an initial segment of the remaining table. -/
theorem Backup2.backup2_go_rows_take {α : Type} (table : List α) (fails : Nat → Bool)
    (start : Nat) :
    ∃ k, (Backup2.load_paginated_data_go table fails start).1
      = (table.drop start).take k := by
  rw [Backup2.load_paginated_data_go.eq_def]
  by_cases h0 : fails start = true
  · exact ⟨0, by simp [h0]⟩
  · by_cases h1 : ((table.drop start).take 1000).isEmpty
    · exact ⟨0, by simp [h0, h1]⟩
    · obtain ⟨k, hk⟩ := Backup2.backup2_go_rows_take table fails (start + 1000)
      refine ⟨1000 + k, ?_⟩
      simp only [h0, h1, if_true, if_false, pageStep]
      rw [List.take_add]
      simp
      rw [hk]
termination_by table.length - start
decreasing_by
  have hdl : (table.drop start).length = table.length - start := by
    simp [List.length_drop]
  have hne : ((table.drop start).take 1000).length ≠ 0 := by
    intro h0x
    exact h1 (by simp [List.length_eq_zero.mp h0x])
  have := List.length_take 1000 (table.drop start)
  omega

/-- If no request failed, the backup mobile-form loop returned the whole
remaining table. -/
theorem Backup2.backup2_go_full_of_ok {α : Type} (table : List α) (fails : Nat → Bool)
    (start : Nat)
    (h : (Backup2.load_paginated_data_go table fails start).2.2 = false) :
    (Backup2.load_paginated_data_go table fails start).1 = table.drop start := by
  rw [Backup2.load_paginated_data_go.eq_def] at h ⊢
  by_cases h0 : fails start = true
  · simp [h0] at h
  · by_cases h1 : ((table.drop start).take 1000).isEmpty
    · have hd : table.drop start = [] := by
        rcases List.take_eq_nil_iff.mp (List.isEmpty_iff.mp h1) with hx | hx
        · exact absurd hx (by norm_num)
        · exact hx
      simp [h0, h1, hd]
    · simp only [h0, h1, if_true, if_false, pageStep] at h ⊢
      have hih := Backup2.backup2_go_full_of_ok table fails (start + 1000) (by simpa using h)
      simp only [hih]
      rw [← List.drop_drop, List.take_append_drop]
      simp
termination_by table.length - start
decreasing_by
  have hdl : (table.drop start).length = table.length - start := by
    simp [List.length_drop]
  have hne : ((table.drop start).take 1000).length ≠ 0 := by
    intro h0x
    exact h1 (by simp [List.length_eq_zero.mp h0x])
  have := List.length_take 1000 (table.drop start)
  omega

/-! ### Claims C1, C2, C3: the paginated fetch -/

/-- C1: with `page_size = 1000`, assuming every request for the range
`[start, start + 999]` returns exactly the table rows at those indices and
no request fails, the paginated full-table fetch (`load_all_service_logs`
in `Dashboard.py` and `load_paginated_data` in `mobile_service_log.py`)
returns exactly the `n` rows of the table, and issues `ceil(n / 1000)`
requests when `n` is not a multiple of 1000 and `ceil(n / 1000) + 1 =
n / 1000 + 1` requests when `n` is a multiple of 1000 (including `n = 0`);
in the multiple case the extra final request returns the empty page that
ends the loop. -/
theorem C1_paginated_fetch_rows_and_request_count {α : Type} (table : List α) :
    Dashboard.load_all_service_logs_go table (fun _ => false) 0
        = .ok (table, if table.length % 1000 = 0 then table.length / 1000 + 1
            else (table.length + 999) / 1000)
      ∧ MobileServiceLog.load_paginated_data_go table (fun _ => false) 0
        = .ok (table, if table.length % 1000 = 0 then table.length / 1000 + 1
            else (table.length + 999) / 1000) := by
  have hc : (table.length - 0) / 1000 + 1
      = if table.length % 1000 = 0 then table.length / 1000 + 1
        else (table.length + 999) / 1000 := by
    split <;> omega
  constructor
  · rw [Dashboard.dashboard_go_noFail_spec, List.drop_zero, hc]
  · rw [MobileServiceLog.mobile_go_noFail_spec, List.drop_zero, hc]

/-- C2 counterexample: on a one-row table with no failing request, the
first page already returns fewer than 1000 rows, so a loop that stops at
the first short page issues exactly one request — as the `Dashboard.py`
loop does.  The `update_log.py` loop does not stop at the first short
page: it issues a second request, refuting the claim that every
implementation stops at the first zero-rows or first short page. -/
theorem C2_counterexample :
    (UpdateLog.load_paginated_data_go ([0] : List Nat) (fun _ => false) 0).2.1 = 2
      ∧ Dashboard.load_all_service_logs_go ([0] : List Nat) (fun _ => false) 0
          = .ok ([0], 1) := by
  constructor
  · rw [UpdateLog.update_go_noFail_spec]
    norm_num
  · rw [Dashboard.dashboard_go_noFail_spec]
    norm_num

/-- C2 (amended): every pagination loop in the repository terminates on
every finite table (each is a total function here) and returns all `n`
rows when no request fails.  The `Dashboard.py` and
`mobile_service_log.py` loops stop at the first page with zero rows or
the first short page, whichever comes first (`n / 1000 + 1` requests);
the `update_log.py` and `mobile_service_log_backup2.py` loops stop only
at the first page with zero rows — a short page does not end them, so
they always issue `ceil(n / 1000) + 1` requests, with a trailing
empty-page request even after a short page. -/
theorem C2_pagination_termination_amended {α : Type} (table : List α) :
    Dashboard.load_all_service_logs_go table (fun _ => false) 0
        = .ok (table, table.length / 1000 + 1)
      ∧ MobileServiceLog.load_paginated_data_go table (fun _ => false) 0
        = .ok (table, table.length / 1000 + 1)
      ∧ UpdateLog.load_paginated_data_go table (fun _ => false) 0
        = (table, (table.length + 999) / 1000 + 1, false)
      ∧ Backup2.load_paginated_data_go table (fun _ => false) 0
        = (table, (table.length + 999) / 1000 + 1, false) := by
  refine ⟨?_, ?_, ?_, ?_⟩
  · rw [Dashboard.dashboard_go_noFail_spec]
    simp
  · rw [MobileServiceLog.mobile_go_noFail_spec]
    simp
  · rw [UpdateLog.update_go_noFail_spec]
    simp
  · rw [Backup2.backup2_go_noFail_spec]
    simp

/-- C3 counterexample: on a one-row table where the first request succeeds
and the second request (start index 1000) fails, the `update_log.py` fetch
observes the failure (the flag `true` models the `st.error` call) and yet
returns the row fetched from the first page — a partial result, not the
empty result the claim requires of every implementation. -/
theorem C3_counterexample :
    UpdateLog.load_paginated_data_go ([7] : List Nat) (fun s => s == 1000) 0
      = ([7], 2, true) := by
  have htake : (([7] : List Nat).drop 0).take 1000 = [7] := by
    rw [List.drop_zero]
    exact List.take_of_length_le (by norm_num)
  rw [UpdateLog.load_paginated_data_go.eq_def]
  rw [if_neg (by norm_num), htake]
  rw [if_neg (by norm_num)]
  rw [UpdateLog.load_paginated_data_go.eq_def]
  rw [if_pos (by norm_num)]
  rfl

/-- C3 (amended): on any request failure the `Dashboard.py` and
`mobile_service_log.py` fetches abort and return an empty result with the
error surfaced, as the claim states; the `update_log.py` and
`mobile_service_log_backup2.py` fetches instead stop at the first failing
request but return the rows of the previously fetched pages (always an
initial segment of the table, and the full table whenever no request
failed), with the error only displayed.  No implementation retries a
request. -/
theorem C3_failure_handling_amended {α : Type} (table : List α) (fails : Nat → Bool) :
    (∀ e, Dashboard.load_all_service_logs_go table fails 0 = .error e →
        Dashboard.load_all_service_logs table fails = [])
      ∧ (∀ e, MobileServiceLog.load_paginated_data_go table fails 0 = .error e →
        MobileServiceLog.load_paginated_data table fails = [])
      ∧ (∃ k, UpdateLog.load_paginated_data table fails = table.take k)
      ∧ ((UpdateLog.load_paginated_data_go table fails 0).2.2 = false →
          UpdateLog.load_paginated_data table fails = table)
      ∧ (∃ k, Backup2.load_paginated_data table fails = table.take k)
      ∧ ((Backup2.load_paginated_data_go table fails 0).2.2 = false →
          Backup2.load_paginated_data table fails = table) := by
  refine ⟨?_, ?_, ?_, ?_, ?_, ?_⟩
  · intro e h
    unfold Dashboard.load_all_service_logs
    rw [h]
  · intro e h
    unfold MobileServiceLog.load_paginated_data
    rw [h]
  · obtain ⟨k, hk⟩ := UpdateLog.update_go_rows_take table fails 0
    exact ⟨k, by simpa [UpdateLog.load_paginated_data] using hk⟩
  · intro h
    have hfull := UpdateLog.update_go_full_of_ok table fails 0 h
    simpa [UpdateLog.load_paginated_data] using hfull
  · obtain ⟨k, hk⟩ := Backup2.backup2_go_rows_take table fails 0
    exact ⟨k, by simpa [Backup2.load_paginated_data] using hk⟩
  · intro h
    have hfull := Backup2.backup2_go_full_of_ok table fails 0 h
    simpa [Backup2.load_paginated_data] using hfull

/-- C3 witness: the amended failure-handling theorem at concrete inputs — a
failing first request makes the Dashboard fetch return the empty list, and
with no failures the `update_log.py` fetch returns the whole table. -/
theorem C3_failure_handling_witness :
    Dashboard.load_all_service_logs ([5, 6] : List Nat) (fun s => s == 0) = []
      ∧ UpdateLog.load_paginated_data ([5, 6] : List Nat) (fun _ => false) = [5, 6] := by
  constructor
  · exact (C3_failure_handling_amended ([5, 6] : List Nat) (fun s => s == 0)).1
      "Error loading service logs"
      (by rw [Dashboard.load_all_service_logs_go.eq_def, if_pos (by norm_num)])
  · exact (C3_failure_handling_amended ([5, 6] : List Nat) (fun _ => false)).2.2.2.1
      (by rw [UpdateLog.update_go_noFail_spec])

/-! ### The aggregation views of `src/Dashboard.py` -/

/-- Sort key of `sort_values` on a count column, descending
(`ascending=False`). -/
def byCountDesc (a b : String × Nat) : Prop := b.2 ≤ a.2

instance : DecidableRel byCountDesc := fun a b => Nat.decLe b.2 a.2

instance : IsTotal (String × Nat) byCountDesc := ⟨fun a b => Nat.le_total b.2 a.2⟩

instance : IsTrans (String × Nat) byCountDesc :=
  ⟨fun _ _ _ h1 h2 => Nat.le_trans h2 h1⟩

/-- pandas `Series.value_counts()`: occurrence counts of the distinct
non-null values, sorted by count descending.  Null (`none`) entries are
dropped (`value_counts` defaults to `dropna=True`). -/
def value_counts (xs : List (Option String)) : List (String × Nat) :=
  let vals := xs.filterMap id
  List.insertionSort byCountDesc
    (vals.dedup.map (fun k => (k, (vals.filter (fun v => v == k)).length)))

/-- `.get(key, 0)` on the result of `value_counts`. -/
def countsGet (counts : List (String × Nat)) (k : String) : Nat :=
  match counts.find? (fun p => p.1 == k) with
  | some p => p.2
  | none => 0

/-- Rational mean of a list of integers (pandas `mean`), `sum / length`.
`Rat` division is total, so the empty case is `0`; every use below guards
emptiness exactly where the Python code does. -/
def ratMean (xs : List Int) : Rat :=
  ((xs.foldl (fun a b => a + b) 0 : Int) : Rat) / (xs.length : Rat)

namespace Dashboard

/-- `days_open` (`Dashboard.py` line 134): `(today - date_logged).dt.days
.fillna(0)` — the number of days since `date_logged`, and `0` when
`date_logged` is missing or unparseable (NaT). -/
def days_open (today : Int) (r : ServiceRecord) : Int :=
  match r.date_logged with
  | some d => today - d
  | none => 0

/-- `resolution_days` (`Dashboard.py` line 160): `last_updated -
date_logged` in days; NaN (`none`) when either date is missing. -/
def resolution_days (r : ServiceRecord) : Option Int :=
  match r.last_updated, r.date_logged with
  | some lu, some dl => some (lu - dl)
  | _, _ => none

/-- `status_counts` (`Dashboard.py` line 143): `df_logs['status']
.value_counts()`. -/
def status_counts (records : List ServiceRecord) : List (String × Nat) :=
  value_counts (records.map (fun r => r.status))

/-- `call_type_dist` (`Dashboard.py` line 311): `df_logs['call_type']
.value_counts()`. -/
def call_type_dist (records : List ServiceRecord) : List (String × Nat) :=
  value_counts (records.map (fun r => r.call_type))

/-- `warranty_dist` (`Dashboard.py` line 323): `df_logs['warranty_status']
.value_counts()`. -/
def warranty_dist (records : List ServiceRecord) : List (String × Nat) :=
  value_counts (records.map (fun r => r.warranty_status))

/-- `avg_resolution` (`Dashboard.py` lines 157-165): over the records with
status `Solved`, compute `resolution_days`, drop negatives and outliers
(`> 365`), and take the mean; `0` whenever either filter leaves nothing. -/
def avg_resolution (records : List ServiceRecord) : Rat :=
  let solved := records.filter (fun r => r.status == some "Solved")
  if solved.isEmpty then 0
  else
    let kept := solved.filter (fun r =>
      match resolution_days r with
      | some d => decide (0 ≤ d) && decide (d ≤ 365)
      | none => false)
    if kept.isEmpty then 0 else ratMean (kept.filterMap resolution_days)

/-- Sort key of the overdue list: `sort_values('days_open',
ascending=False)`. -/
def byDaysOpenDesc (today : Int) (a b : ServiceRecord) : Prop :=
  days_open today b ≤ days_open today a

instance (today : Int) : DecidableRel (byDaysOpenDesc today) :=
  fun _ _ => Int.decLe _ _

instance (today : Int) : IsTotal ServiceRecord (byDaysOpenDesc today) :=
  ⟨fun _ _ => Int.le_total _ _⟩

instance (today : Int) : IsTrans ServiceRecord (byDaysOpenDesc today) :=
  ⟨fun _ _ _ h1 h2 => le_trans h2 h1⟩

/-- `overdue_calls` (`Dashboard.py` lines 217-218): records with status
`Open` and `days_open > 7`, sorted descending by `days_open`. -/
def overdue_calls (today : Int) (records : List ServiceRecord) : List ServiceRecord :=
  List.insertionSort (byDaysOpenDesc today)
    (records.filter (fun r => r.status == some "Open"
      && decide (7 < days_open today r)))

/-- The overdue cards actually rendered: `overdue_calls.head(5)`
(`Dashboard.py` line 221). -/
def overdue_display (today : Int) (records : List ServiceRecord) : List ServiceRecord :=
  (overdue_calls today records).take 5

/-- The overflow counter `len(overdue_calls) - 5` shown when more than 5
records are overdue (`Dashboard.py` lines 231-232); `Nat` subtraction makes
it `0` at 5 or fewer. -/
def overdue_overflow (today : Int) (records : List ServiceRecord) : Nat :=
  (overdue_calls today records).length - 5

/-- Sort key of the on-hold list: `sort_values('last_updated')`, ascending
with NaT placed last (pandas `na_position='last'`). -/
def byLastUpdatedAsc (a b : ServiceRecord) : Prop :=
  match a.last_updated, b.last_updated with
  | some x, some y => x ≤ y
  | some _, none => True
  | none, some _ => False
  | none, none => True

instance : DecidableRel byLastUpdatedAsc := fun a b =>
  match ha : a.last_updated, hb : b.last_updated with
  | some x, some y => by
      rw [byLastUpdatedAsc, ha, hb]
      exact Int.decLe x y
  | some x, none => by
      rw [byLastUpdatedAsc, ha, hb]
      exact inferInstance
  | none, some y => by
      rw [byLastUpdatedAsc, ha, hb]
      exact inferInstance
  | none, none => by
      rw [byLastUpdatedAsc, ha, hb]
      exact inferInstance

/-- `on_hold_df` (`Dashboard.py` line 238): records with status `On_Hold`
sorted ascending by `last_updated` (longest-waiting first). -/
def on_hold_calls (records : List ServiceRecord) : List ServiceRecord :=
  List.insertionSort byLastUpdatedAsc
    (records.filter (fun r => r.status == some "On_Hold"))

/-- The on-hold cards actually rendered: `on_hold_df.head(5)`. -/
def on_hold_display (records : List ServiceRecord) : List ServiceRecord :=
  (on_hold_calls records).take 5

/-- `last_60` (`Dashboard.py` line 274): records logged within the last 60
days (a NaT `date_logged` compares false and is excluded). -/
def last_60 (today : Int) (records : List ServiceRecord) : List ServiceRecord :=
  records.filter (fun r =>
    match r.date_logged with
    | some d => decide (today - 60 ≤ d)
    | none => false)

/-- `daily_calls` (`Dashboard.py` line 277): group the last-60-days records
by the value of `date_logged` and count each group (group keys listed in
last-occurrence order; pandas sorts them, but no claim depends on the
order). -/
def daily_calls (today : Int) (records : List ServiceRecord) : List (Int × Nat) :=
  let l := last_60 today records
  (l.filterMap (fun r => r.date_logged)).dedup.map
    (fun d => (d, (l.filter (fun r => r.date_logged == some d)).length))

/-- `status_by_week` (`Dashboard.py` lines 293-295): weekly count grouped
by (week bucket, status); the `pd.Grouper(freq='W')` bucket is modelled as
the floor of the day number divided by 7, and a row with a missing
grouping key is dropped (pandas `groupby` default). -/
def status_by_week (today : Int) (records : List ServiceRecord) :
    List ((Int × String) × Nat) :=
  let l := last_60 today records
  let key : ServiceRecord → Option (Int × String) := fun r =>
    match r.date_logged, r.status with
    | some d, some s => some (Int.fdiv d 7, s)
    | _, _ => none
  (l.filterMap key).dedup.map
    (fun k => (k, (l.filter (fun r => key r == some k)).length))

/-- One row of the technician rollup table (`tech_stats`): technician key
(kept even when null, `dropna=False`), total call count, solved count, and
mean `days_open`. -/
structure GroupStat where
  key : Option String
  total : Nat
  solved : Nat
  avgDays : Rat
deriving DecidableEq, Repr

/-- The `groupby('technician_name', dropna=False).agg(...)` stage of
`tech_stats` (`Dashboard.py` lines 336-341), before sorting and
truncation. -/
def tech_groups (today : Int) (records : List ServiceRecord) : List GroupStat :=
  (records.map (fun r => r.technician_name)).dedup.map (fun k =>
    let rs := records.filter (fun r => r.technician_name == k)
    { key := k
      total := rs.length
      solved := (rs.filter (fun r => r.status == some "Solved")).length
      avgDays := ratMean (rs.map (fun r => days_open today r)) })

/-- Sort key of the rollups: `sort_values('Total Calls',
ascending=False)`. -/
def byTotalDesc (a b : GroupStat) : Prop := b.total ≤ a.total

instance : DecidableRel byTotalDesc := fun a b => Nat.decLe b.total a.total

instance : IsTotal GroupStat byTotalDesc := ⟨fun a b => Nat.le_total b.total a.total⟩

instance : IsTrans GroupStat byTotalDesc := ⟨fun _ _ _ h1 h2 => Nat.le_trans h2 h1⟩

/-- `tech_stats` (`Dashboard.py` line 342): the technician rollup sorted
descending by total calls, truncated to the top 10. -/
def tech_stats (today : Int) (records : List ServiceRecord) : List GroupStat :=
  (List.insertionSort byTotalDesc (tech_groups today records)).take 10

/-- One row of the customer rollup table (`customer_stats`): customer key
(kept even when null), total, solved, and pending = total - solved. -/
structure CustomerStat where
  key : Option String
  total : Nat
  solved : Nat
  pending : Nat
deriving DecidableEq, Repr

/-- The `groupby('customer_name', dropna=False).agg(...)` stage of
`customer_stats` (`Dashboard.py` lines 370-375). -/
def customer_groups (records : List ServiceRecord) : List CustomerStat :=
  (records.map (fun r => r.customer_name)).dedup.map (fun k =>
    let rs := records.filter (fun r => r.customer_name == k)
    let solved := (rs.filter (fun r => r.status == some "Solved")).length
    { key := k
      total := rs.length
      solved := solved
      pending := rs.length - solved })

/-- Sort key of the customer rollup. -/
def byCustTotalDesc (a b : CustomerStat) : Prop := b.total ≤ a.total

instance : DecidableRel byCustTotalDesc := fun a b => Nat.decLe b.total a.total

instance : IsTotal CustomerStat byCustTotalDesc :=
  ⟨fun a b => Nat.le_total b.total a.total⟩

instance : IsTrans CustomerStat byCustTotalDesc :=
  ⟨fun _ _ _ h1 h2 => Nat.le_trans h2 h1⟩

/-- `customer_stats` (`Dashboard.py` line 376): the customer rollup sorted
descending by total calls, truncated to the top 10. -/
def customer_stats (records : List ServiceRecord) : List CustomerStat :=
  (List.insertionSort byCustTotalDesc (customer_groups records)).take 10

/-- `recent_calls` (`Dashboard.py` line 152): records logged in the last
30 days. -/
def recent_calls (today : Int) (records : List ServiceRecord) : Nat :=
  (records.filter (fun r =>
    match r.date_logged with
    | some d => decide (today - 30 ≤ d)
    | none => false)).length

/-- `previous_calls` (`Dashboard.py` lines 153-154): records logged in the
prior 30-day window. -/
def previous_calls (today : Int) (records : List ServiceRecord) : Nat :=
  (records.filter (fun r =>
    match r.date_logged with
    | some d => decide (today - 60 ≤ d) && decide (d < today - 30)
    | none => false)).length

/-- `trend` (`Dashboard.py` line 155): month-over-month difference. -/
def trend (today : Int) (records : List ServiceRecord) : Int :=
  (recent_calls today records : Int) - (previous_calls today records : Int)

/-- Everything the dashboard page renders from the service-log table. -/
structure DashboardView where
  total_calls : Nat
  open_calls : Nat
  on_hold : Nat
  solved : Nat
  month_trend : Int
  avg_res : Rat
  overdue_shown : List ServiceRecord
  overdue_more : Nat
  on_hold_shown : List ServiceRecord
  daily : List (Int × Nat)
  weekly : List ((Int × String) × Nat)
  call_types : List (String × Nat)
  warranties : List (String × Nat)
  techs : List GroupStat
  customers : List CustomerStat
deriving DecidableEq, Repr

/-- The page flow of `Dashboard.py`: if the fetched table is empty the page
shows the no-data warning and stops (`df_logs.empty` guard, lines 120-122,
result `none`); otherwise every view is computed. -/
def dashboard_page (today : Int) (records : List ServiceRecord) :
    Option DashboardView :=
  if records.isEmpty then none
  else some
    { total_calls := records.length
      open_calls := countsGet (status_counts records) "Open"
      on_hold := countsGet (status_counts records) "On_Hold"
      solved := countsGet (status_counts records) "Solved"
      month_trend := trend today records
      avg_res := avg_resolution records
      overdue_shown := overdue_display today records
      overdue_more := overdue_overflow today records
      on_hold_shown := on_hold_display records
      daily := daily_calls today records
      weekly := status_by_week today records
      call_types := call_type_dist records
      warranties := warranty_dist records
      techs := tech_stats today records
      customers := customer_stats records }

end Dashboard

/-! ### The update operation of the mobile app -/

/-- The fields collected by the update form of `src/mobile_service_log.py`
(lines 684-692).  `date_visited`, `technician_name`, `action_taken` and
`status` are always present (`action_taken` is validated non-empty before
the write); `spare_parts` and `remarks` are `None` when left blank. -/
structure UpdateForm where
  date_visited : Int
  technician_name : String
  action_taken : String
  spare_parts : Option String
  status : String
  remarks : Option String
  last_updated : Int
deriving DecidableEq, Repr

namespace MobileServiceLog

/-- The `update_data` dict of `src/mobile_service_log.py` (lines 684-692)
applied to a stored record: the backend `update(...)` overwrites exactly
the listed columns and leaves every other column of the row unchanged. -/
def update_data (f : UpdateForm) (r : ServiceRecord) : ServiceRecord :=
  { r with
    date_visited := some f.date_visited
    technician_name := some f.technician_name
    action_taken := some f.action_taken
    spare_parts := f.spare_parts
    status := some f.status
    remarks := f.remarks
    last_updated := some f.last_updated }

/-- `supabase.table("Service_Log").update(update_data).eq("call_id", id)`
(lines 694-696): overwrite the update columns on every row whose `call_id`
matches; all other rows are untouched and no row is removed. -/
def apply_update (table : List ServiceRecord) (id : String) (f : UpdateForm) :
    List ServiceRecord :=
  table.map (fun r => if r.call_id == id then update_data f r else r)

end MobileServiceLog

/-! ### Concrete inputs used by the counterexamples and witnesses -/

/-- A baseline concrete service record. -/
def baseRecord : ServiceRecord :=
  { call_id := "c0"
    customer_name := some "Acme"
    instrument_name := some "Analyzer"
    technician_name := some "Ann"
    contact_person := some "Pat"
    serial_number := some "SN1"
    status := some "Open"
    date_logged := some 0
    date_visited := some 1
    last_updated := some 2
    problem_description := some "noise"
    action_taken := some "checked"
    spare_parts := none
    remarks := none
    warranty_status := some "AMC"
    call_type := some "Breakdown" }

/-- A record whose three categorical grouping fields are all null. -/
def recNoCats : ServiceRecord :=
  { baseRecord with
    call_id := "n0"
    status := none
    call_type := none
    warranty_status := none }

/-- A record with a null technician. -/
def recNoTech : ServiceRecord :=
  { baseRecord with call_id := "t0", technician_name := none }

/-- A record whose `date_logged` failed to parse (NaT). -/
def recNoDate : ServiceRecord :=
  { baseRecord with call_id := "nd", date_logged := none }

/-- An `Open` record logged `d` days before day 100. -/
def openRec (name : String) (d : Int) : ServiceRecord :=
  { baseRecord with call_id := name, date_logged := some (100 - d) }

/-- The six-record table of the urgent-overdue example: `days_open` values
[3, 8, 15, 2, 20, 9], all with status `Open`, at `today = 100`. -/
def overdueSample : List ServiceRecord :=
  [openRec "d3" 3, openRec "d8" 8, openRec "d15" 15,
   openRec "d2" 2, openRec "d20" 20, openRec "d9" 9]

/-- Technician-rollup example records: (A, Solved), (A, Open), (B, Solved),
each logged at day 0. -/
def recA1 : ServiceRecord :=
  { baseRecord with
    call_id := "a1"
    technician_name := some "A"
    status := some "Solved" }

/-- Second record of technician A, still open. -/
def recA2 : ServiceRecord :=
  { baseRecord with
    call_id := "a2"
    technician_name := some "A"
    status := some "Open" }

/-- Single solved record of technician B. -/
def recB : ServiceRecord :=
  { baseRecord with
    call_id := "b1"
    technician_name := some "B"
    status := some "Solved" }

/-- A form instance whose values differ from `baseRecord`. -/
def sampleForm : UpdateForm :=
  { date_visited := 50
    technician_name := "Bob"
    action_taken := "replaced pump"
    spare_parts := some "pump"
    status := "Solved"
    remarks := some "ok"
    last_updated := 51 }

/-! ### Claims C4 to C10 -/

/-- Every key of a `value_counts` result is a value actually present
(non-null) in the column: a null entry never forms a group. -/
theorem value_counts_key_present (xs : List (Option String)) (p : String × Nat)
    (hp : p ∈ value_counts xs) : some p.1 ∈ xs := by
  simp only [value_counts] at hp
  obtain ⟨k, hk, hfk⟩ := List.mem_map.mp ((List.mem_insertionSort _).mp hp)
  obtain ⟨o, ho, hoe⟩ := List.mem_filterMap.mp (List.mem_dedup.mp hk)
  have ho2 : o = some k := hoe
  have hp1 : p.1 = k := by rw [← hfk]
  rw [hp1, ← ho2]
  exact ho

/-- C4 counterexample: one record whose `status`, `call_type` and
`warranty_status` are all null.  Each `value_counts`-based distribution
returns no group at all for it: the record is dropped, not counted as its
own group, refuting the claim for the status, call-type and warranty
views. -/
theorem C4_counterexample :
    Dashboard.status_counts [recNoCats] = []
      ∧ Dashboard.call_type_dist [recNoCats] = []
      ∧ Dashboard.warranty_dist [recNoCats] = [] := by
  refine ⟨?_, ?_, ?_⟩ <;> rfl

/-- C4 (amended): the `groupby(..., dropna=False)` rollups (per-technician
and per-customer) do treat a missing category value as its own group —
every value of the column, `none` included, gets a group carrying the
count of its records.  The `value_counts`-based views (status counts,
call_type distribution, warranty_status distribution) instead drop
records with a missing value: every group key they return is a value
present (non-null) in some record. -/
theorem C4_missing_category_groups_amended (today : Int) (records : List ServiceRecord) :
    (∀ k, k ∈ records.map (fun r => r.technician_name) →
        ∃ g ∈ Dashboard.tech_groups today records, g.key = k
          ∧ g.total = (records.filter (fun r => r.technician_name == k)).length)
      ∧ (∀ k, k ∈ records.map (fun r => r.customer_name) →
        ∃ g ∈ Dashboard.customer_groups records, g.key = k
          ∧ g.total = (records.filter (fun r => r.customer_name == k)).length)
      ∧ (∀ p ∈ Dashboard.status_counts records, ∃ r ∈ records, r.status = some p.1)
      ∧ (∀ p ∈ Dashboard.call_type_dist records, ∃ r ∈ records, r.call_type = some p.1)
      ∧ (∀ p ∈ Dashboard.warranty_dist records,
          ∃ r ∈ records, r.warranty_status = some p.1) := by
  refine ⟨?_, ?_, ?_, ?_, ?_⟩
  · intro k hk
    exact ⟨_, List.mem_map_of_mem _ (List.mem_dedup.mpr hk), rfl, rfl⟩
  · intro k hk
    exact ⟨_, List.mem_map_of_mem _ (List.mem_dedup.mpr hk), rfl, rfl⟩
  · intro p hp
    obtain ⟨r, hr, hre⟩ := List.mem_map.mp (value_counts_key_present _ p hp)
    exact ⟨r, hr, hre⟩
  · intro p hp
    obtain ⟨r, hr, hre⟩ := List.mem_map.mp (value_counts_key_present _ p hp)
    exact ⟨r, hr, hre⟩
  · intro p hp
    obtain ⟨r, hr, hre⟩ := List.mem_map.mp (value_counts_key_present _ p hp)
    exact ⟨r, hr, hre⟩

/-- C4 witness: the amended theorem at a one-record table with a null
technician — the rollup produces a group for the null key with count 1. -/
theorem C4_missing_category_groups_witness :
    ∃ g ∈ Dashboard.tech_groups 0 [recNoTech], g.key = none ∧ g.total = 1 := by
  obtain ⟨g, hg, hkey, htot⟩ :=
    (C4_missing_category_groups_amended 0 [recNoTech]).1 none (by decide)
  have hlen : ([recNoTech].filter (fun r => r.technician_name == none)).length = 1 := by
    decide
  exact ⟨g, hg, hkey, by rw [htot]; exact hlen⟩

/-- C5: the mean-resolution KPI is the mean of `resolution_days` over
exactly the records with status `Solved` whose `resolution_days`
(`last_updated - date_logged` in days) lies in [0, 365]; records with a
negative, > 365 or uncomputable resolution are excluded, and with zero
eligible records (in particular with no Solved record at all) the result
is exactly 0 — never NaN and never an error, `Rat` arithmetic being
total. -/
theorem C5_avg_resolution_eligibility (records : List ServiceRecord) :
    Dashboard.avg_resolution records
      = if (records.filter (fun r => r.status == some "Solved"
            && (match Dashboard.resolution_days r with
                | some d => decide (0 ≤ d) && decide (d ≤ 365)
                | none => false))).isEmpty
        then 0
        else ratMean ((records.filter (fun r => r.status == some "Solved"
            && (match Dashboard.resolution_days r with
                | some d => decide (0 ≤ d) && decide (d ≤ 365)
                | none => false))).filterMap Dashboard.resolution_days) := by
  have hff : records.filter (fun r => r.status == some "Solved"
        && (match Dashboard.resolution_days r with
            | some d => decide (0 ≤ d) && decide (d ≤ 365)
            | none => false))
      = (records.filter (fun r => r.status == some "Solved")).filter (fun r =>
          match Dashboard.resolution_days r with
          | some d => decide (0 ≤ d) && decide (d ≤ 365)
          | none => false) := by
    rw [List.filter_filter]
    apply List.filter_congr
    intro a _
    exact Bool.and_comm _ _
  rw [hff]
  simp only [Dashboard.avg_resolution]
  by_cases h1 : (records.filter (fun r => r.status == some "Solved")).isEmpty
  · have hA : records.filter (fun r => r.status == some "Solved") = [] :=
      List.isEmpty_iff.mp h1
    rw [if_pos h1, hA]
    simp
  · rw [if_neg h1]

/-- C6: on the empty input table every aggregation view yields a
well-formed empty or zero result — empty lists, zero counts, mean 0 — and
the dashboard page takes its explicit no-data branch; no view can raise,
each being a total function. -/
theorem C6_empty_table_views (today : Int) :
    Dashboard.dashboard_page today [] = none
      ∧ Dashboard.status_counts [] = []
      ∧ countsGet (Dashboard.status_counts []) "Open" = 0
      ∧ countsGet (Dashboard.status_counts []) "On_Hold" = 0
      ∧ countsGet (Dashboard.status_counts []) "Solved" = 0
      ∧ Dashboard.avg_resolution [] = 0
      ∧ Dashboard.trend today [] = 0
      ∧ Dashboard.overdue_calls today [] = []
      ∧ Dashboard.overdue_display today [] = []
      ∧ Dashboard.overdue_overflow today [] = 0
      ∧ Dashboard.on_hold_calls [] = []
      ∧ Dashboard.on_hold_display [] = []
      ∧ Dashboard.daily_calls today [] = []
      ∧ Dashboard.status_by_week today [] = []
      ∧ Dashboard.call_type_dist [] = []
      ∧ Dashboard.warranty_dist [] = []
      ∧ Dashboard.tech_stats today [] = []
      ∧ Dashboard.customer_stats [] = [] := by
  refine ⟨?_, ?_, ?_, ?_, ?_, ?_, ?_, ?_, ?_, ?_, ?_, ?_, ?_, ?_, ?_, ?_, ?_, ?_⟩
    <;> rfl

/-- C7: the urgent-overdue view selects exactly the records with status
`Open` and `days_open > 7` (the sorted list is a permutation of that
filter), sorted descending by `days_open`, displays at most 5 and reports
the remainder as the overflow count (0 when 5 or fewer are shown); on the
six Open records with `days_open` [3, 8, 15, 2, 20, 9] it shows exactly
the records with days [20, 15, 9, 8] in that order, with overflow 0. -/
theorem C7_overdue_view (today : Int) (records : List ServiceRecord) :
    (Dashboard.overdue_calls today records).Perm
        (records.filter (fun r => r.status == some "Open"
          && decide (7 < Dashboard.days_open today r)))
      ∧ List.Sorted (Dashboard.byDaysOpenDesc today)
          (Dashboard.overdue_calls today records)
      ∧ (Dashboard.overdue_display today records).length ≤ 5
      ∧ (Dashboard.overdue_display today records).length
            + Dashboard.overdue_overflow today records
          = (Dashboard.overdue_calls today records).length
      ∧ Dashboard.overdue_display 100 overdueSample
          = [openRec "d20" 20, openRec "d15" 15, openRec "d9" 9, openRec "d8" 8]
      ∧ Dashboard.overdue_overflow 100 overdueSample = 0 := by
  refine ⟨List.perm_insertionSort _ _, List.sorted_insertionSort _ _,
    List.length_take_le 5 _, ?_, by decide, by decide⟩
  unfold Dashboard.overdue_display Dashboard.overdue_overflow
  have := List.length_take 5 (Dashboard.overdue_calls today records)
  omega

/-- C8: the per-technician rollup groups records by `technician_name` and
computes per group the total count, the solved count and the mean
`days_open`; its rows are sorted descending by total count and truncated
to the top 10 (the per-customer rollup analogously with total, solved and
pending); on {(A, Solved), (A, Open), (B, Solved)} it yields A with total
2 and solved 1 ordered before B with total 1 and solved 1. -/
theorem C8_rollups (today : Int) (records : List ServiceRecord) :
    (∀ g ∈ Dashboard.tech_stats today records,
        g.total = (records.filter (fun r => r.technician_name == g.key)).length
          ∧ g.solved = ((records.filter (fun r => r.technician_name == g.key)).filter
              (fun r => r.status == some "Solved")).length
          ∧ g.avgDays = ratMean ((records.filter (fun r => r.technician_name == g.key)).map
              (fun r => Dashboard.days_open today r)))
      ∧ List.Sorted Dashboard.byTotalDesc (Dashboard.tech_stats today records)
      ∧ (Dashboard.tech_stats today records).length ≤ 10
      ∧ (∀ g ∈ Dashboard.customer_stats records,
          g.total = (records.filter (fun r => r.customer_name == g.key)).length
            ∧ g.solved = ((records.filter (fun r => r.customer_name == g.key)).filter
                (fun r => r.status == some "Solved")).length
            ∧ g.pending = g.total - g.solved)
      ∧ List.Sorted Dashboard.byCustTotalDesc (Dashboard.customer_stats records)
      ∧ (Dashboard.customer_stats records).length ≤ 10
      ∧ (Dashboard.tech_stats 10 [recA1, recA2, recB]).map
            (fun g => (g.key, g.total, g.solved))
          = [(some "A", 2, 1), (some "B", 1, 1)] := by
  refine ⟨?_, ?_, ?_, ?_, ?_, ?_, by decide⟩
  · intro g hg
    have h1 := (List.mem_insertionSort _).mp (List.mem_of_mem_take hg)
    obtain ⟨k, hk, hfk⟩ := List.mem_map.mp h1
    subst hfk
    exact ⟨rfl, rfl, rfl⟩
  · exact List.Pairwise.sublist (List.take_sublist 10 _) (List.sorted_insertionSort _ _)
  · exact List.length_take_le 10 _
  · intro g hg
    have h1 := (List.mem_insertionSort _).mp (List.mem_of_mem_take hg)
    obtain ⟨k, hk, hfk⟩ := List.mem_map.mp h1
    subst hfk
    exact ⟨rfl, rfl, rfl⟩
  · exact List.Pairwise.sublist (List.take_sublist 10 _) (List.sorted_insertionSort _ _)
  · exact List.length_take_le 10 _

/-- C8 witness: the customer-rollup row-content clause of `C8_rollups` at
the concrete three-record table (all three records belong to customer
Acme), instantiated at its single rollup row. -/
theorem C8_rollups_witness :
    ({ key := some "Acme", total := 3, solved := 2, pending := 1 }
          : Dashboard.CustomerStat).total
        = ([recA1, recA2, recB].filter
            (fun r => r.customer_name == some "Acme")).length
      ∧ ({ key := some "Acme", total := 3, solved := 2, pending := 1 }
          : Dashboard.CustomerStat).solved
        = (([recA1, recA2, recB].filter
            (fun r => r.customer_name == some "Acme")).filter
              (fun r => r.status == some "Solved")).length :=
  ⟨((C8_rollups 10 [recA1, recA2, recB]).2.2.2.1
      { key := some "Acme", total := 3, solved := 2, pending := 1 }
      (by decide)).1,
   ((C8_rollups 10 [recA1, recA2, recB]).2.2.2.1
      { key := some "Acme", total := 3, solved := 2, pending := 1 }
      (by decide)).2.1⟩

/-- C9 counterexample: the mobile update form also overwrites
`technician_name`, `date_visited` and `spare_parts`, so an update does not
mutate only `status`, `action_taken`, `remarks` and `last_updated`: here
all three of those other fields change. -/
theorem C9_counterexample :
    (MobileServiceLog.update_data sampleForm baseRecord).technician_name
        ≠ baseRecord.technician_name
      ∧ (MobileServiceLog.update_data sampleForm baseRecord).date_visited
        ≠ baseRecord.date_visited
      ∧ (MobileServiceLog.update_data sampleForm baseRecord).spare_parts
        ≠ baseRecord.spare_parts := by
  refine ⟨?_, ?_, ?_⟩ <;> decide

/-- C9 (amended): an update to an existing record mutates exactly the
fields `date_visited`, `technician_name`, `action_taken`, `spare_parts`,
`status`, `remarks` and `last_updated` in place; every other stored field
(`call_id`, `date_logged`, `customer_name`, `instrument_name`,
`contact_person`, `serial_number`, `problem_description`,
`warranty_status`, `call_type`) is unchanged, and the table-level update
keeps every row (same length, same `call_id` in every position): no
operation deletes a record. -/
theorem C9_update_frame_amended (f : UpdateForm) (r : ServiceRecord)
    (table : List ServiceRecord) (id : String) :
    ((MobileServiceLog.update_data f r).call_id = r.call_id
        ∧ (MobileServiceLog.update_data f r).date_logged = r.date_logged
        ∧ (MobileServiceLog.update_data f r).customer_name = r.customer_name
        ∧ (MobileServiceLog.update_data f r).instrument_name = r.instrument_name
        ∧ (MobileServiceLog.update_data f r).contact_person = r.contact_person
        ∧ (MobileServiceLog.update_data f r).serial_number = r.serial_number
        ∧ (MobileServiceLog.update_data f r).problem_description = r.problem_description
        ∧ (MobileServiceLog.update_data f r).warranty_status = r.warranty_status
        ∧ (MobileServiceLog.update_data f r).call_type = r.call_type)
      ∧ ((MobileServiceLog.update_data f r).status = some f.status
        ∧ (MobileServiceLog.update_data f r).action_taken = some f.action_taken
        ∧ (MobileServiceLog.update_data f r).remarks = f.remarks
        ∧ (MobileServiceLog.update_data f r).last_updated = some f.last_updated
        ∧ (MobileServiceLog.update_data f r).date_visited = some f.date_visited
        ∧ (MobileServiceLog.update_data f r).technician_name = some f.technician_name
        ∧ (MobileServiceLog.update_data f r).spare_parts = f.spare_parts)
      ∧ (MobileServiceLog.apply_update table id f).length = table.length
      ∧ (MobileServiceLog.apply_update table id f).map (fun x => x.call_id)
          = table.map (fun x => x.call_id) := by
  refine ⟨⟨rfl, rfl, rfl, rfl, rfl, rfl, rfl, rfl, rfl⟩,
    ⟨rfl, rfl, rfl, rfl, rfl, rfl, rfl⟩, by simp [MobileServiceLog.apply_update], ?_⟩
  unfold MobileServiceLog.apply_update
  rw [List.map_map]
  apply List.map_congr_left
  intro a _
  by_cases h : a.call_id = id <;> simp [MobileServiceLog.update_data, h]

/-- C10: a record whose `date_logged` is missing or unparseable gets
`days_open = 0` from the `fillna(0)`, hence never satisfies the overdue
condition (`status Open` and `days_open > 7`) and never appears in the
urgent-overdue list, no matter how old it really is. -/
theorem C10_missing_date_never_overdue (today : Int) (records : List ServiceRecord)
    (r : ServiceRecord) (h : r.date_logged = none) :
    Dashboard.days_open today r = 0
      ∧ r ∉ Dashboard.overdue_calls today records := by
  have hdo : Dashboard.days_open today r = 0 := by
    unfold Dashboard.days_open
    rw [h]
  refine ⟨hdo, ?_⟩
  intro hmem
  unfold Dashboard.overdue_calls at hmem
  have h2 := (List.mem_insertionSort _).mp hmem
  have h3 := (List.mem_filter.mp h2).2
  simp [hdo] at h3

/-- C10 witness: the theorem at a concrete record with NaT `date_logged`
and the six-record overdue sample table. -/
theorem C10_missing_date_never_overdue_witness :
    Dashboard.days_open 100 recNoDate = 0
      ∧ recNoDate ∉ Dashboard.overdue_calls 100 overdueSample :=
  C10_missing_date_never_overdue 100 overdueSample recNoDate rfl
